import Mathlib

/-!
# ChainTrace IoT pipeline — verification of the sensor ingestion core

Shallow embedding of the IoT sensor-data pipeline (`iot-module`):
`DataProcessor` (validation, derived metrics, transformations, quality
scoring, batch processing, alert generation) and `SensorDataCollector`
(reading validation, threshold alerts), plus the module wiring that feeds
the processor's queue.

Modelling conventions:
* JavaScript numbers are modelled as rationals (`ℚ`); float rounding is
  out of scope.  A JS expression whose value would be `NaN` is modelled
  as `none : Option ℚ`.
* ISO-8601 timestamp strings are modelled by their parsed epoch-millisecond
  instant; `none` stands for an absent/empty (falsy) timestamp string.
* `metadata` is modelled by its list of keys (`Object.keys`), the only
  thing the code inspects, with `none` for an absent field.
* Time-dependent functions (`Date.now()`, `new Date().toISOString()`)
  take the current instant `now : ℤ` as an explicit parameter.
-/

/-- A JavaScript value carried in a reading's `value` field: a number, a
location object `{latitude, longitude, accuracy?}` (fields possibly
missing, hence `Option`), `undefined`, or `null`. -/
inductive SensorValue where
  | num (q : ℚ)
  | loc (latitude : Option ℚ) (longitude : Option ℚ) (accuracy : Option ℚ)
  | undef
  | nullv
  deriving DecidableEq

/-- JS truthiness of a `SensorValue`: `0`, `undefined` and `null` are
falsy; any object is truthy. -/
def SensorValue.truthy : SensorValue → Bool
  | .num q => q ≠ 0
  | .loc _ _ _ => true
  | .undef => false
  | .nullv => false

/-- JS numeric coercion `Number(v)`: a number is itself, `null` coerces to
`0`, `undefined` and plain objects coerce to `NaN` (modelled `none`). -/
def SensorValue.toNumber : SensorValue → Option ℚ
  | .num q => some q
  | .nullv => some 0
  | .loc _ _ _ => none
  | .undef => none

/-- JS comparison `v > q` on a `SensorValue`: `NaN` compares false. -/
def SensorValue.jsGt (v : SensorValue) (q : ℚ) : Bool :=
  match v.toNumber with
  | some x => x > q
  | none => false

/-- JS comparison `v < q` on a `SensorValue`: `NaN` compares false. -/
def SensorValue.jsLt (v : SensorValue) (q : ℚ) : Bool :=
  match v.toNumber with
  | some x => x < q
  | none => false

/-- The optional `location` metadata object on a reading (the device's
position, distinct from a `location`-type value). -/
structure LocObj where
  latitude : ℚ
  longitude : ℚ
  accuracy : Option ℚ
  deriving DecidableEq

/-- Structure `SensorReading` (types/sensor.ts): one observation from one sensor. -/
structure SensorReading where
  sensorId : String
  sensorType : String
  value : SensorValue
  unit : Option String := none
  /-- Parsed epoch-ms instant of the ISO `timestamp` string; `none` stands
  for an absent or empty (falsy) timestamp. -/
  timestamp : Option ℤ
  location : Option LocObj := none
  /-- Keys `Object.keys(metadata)`; `none` when the field is absent. -/
  metadata : Option (List String) := none
  deriving DecidableEq

namespace DataProcessor

/-- Model of `DataProcessor.validateReading`: throws (modelled `Except.error` with
the thrown message) on the first failed check, in source order: falsy or
empty `sensorId` / `sensorType`, `null`/`undefined` value, falsy
`timestamp`, then a type-specific range check; sensor types without a
`switch` case (e.g. `light`, `vibration`) get no range check. -/
def validateReading (r : SensorReading) : Except String Unit :=
  if r.sensorId = "" then .error "Invalid sensor ID"
  else if r.sensorType = "" then .error "Invalid sensor type"
  else if r.value = SensorValue.nullv ∨ r.value = SensorValue.undef then
    .error "Invalid sensor value"
  else if r.timestamp = none then .error "Invalid timestamp"
  else
    match r.sensorType with
    | "temperature" =>
        match r.value with
        | .num q => if q < -50 ∨ q > 150 then .error "Invalid temperature value" else .ok ()
        | _ => .error "Invalid temperature value"
    | "humidity" =>
        match r.value with
        | .num q => if q < 0 ∨ q > 100 then .error "Invalid humidity value" else .ok ()
        | _ => .error "Invalid humidity value"
    | "pressure" =>
        match r.value with
        | .num q => if q < 0 ∨ q > 2000 then .error "Invalid pressure value" else .ok ()
        | _ => .error "Invalid pressure value"
    | "location" =>
        match r.value with
        | .loc (some _) (some _) _ => .ok ()
        | _ => .error "Invalid location value"
    | _ => .ok ()

/-- Model of `DataProcessor.isValueReasonable`: the source stubs this to always
return `true` (extension point for domain-specific checks). -/
def isValueReasonable (_ : SensorReading) : Bool := true

/-- The staleness deduction of `calculateQualityScore`:
`Date.now() - new Date(timestamp).getTime() > 300000` costs 20 points; an
absent timestamp gives a `NaN` age, and `NaN > 300000` is false, so no
deduction. -/
def staleDeduction (now : ℤ) : Option ℤ → ℤ
  | some t => if now - t > 300000 then 20 else 0
  | none => 0

/-- Whether `!reading.metadata || Object.keys(reading.metadata).length === 0`
holds: metadata absent or empty. -/
def metadataMissing : Option (List String) → Bool
  | none => true
  | some keys => keys.isEmpty

/-- The quality score before the `Math.max(0, score)` floor: start at 100;
deduct 20 for staleness; deduct 10 when `isValueReasonable` returns `true`
(the source's condition is not negated); deduct 5 for missing/empty
metadata. -/
def rawQualityScore (now : ℤ) (r : SensorReading) : ℤ :=
  100 - staleDeduction now r.timestamp
    - (if isValueReasonable r then 10 else 0)
    - (if metadataMissing r.metadata then 5 else 0)

/-- Model of `DataProcessor.calculateQualityScore`: the raw score floored at 0. -/
def calculateQualityScore (now : ℤ) (r : SensorReading) : ℤ :=
  max 0 (rawQualityScore now r)

end DataProcessor

/-- The `accuracy` derived metric for location readings:
`reading.value.accuracy || 'unknown'` — a missing (or falsy, e.g. `0`)
accuracy falls back to the string `'unknown'`, modelled `unknown`. -/
inductive AccuracyVal where
  | known (q : ℚ)
  | unknown
  deriving DecidableEq

/-- The dew-point computation `calculateDewPoint(humidity, 20)` uses the
Magnus formula with a natural logarithm; its numeric value is
transcendental, so it is kept as a symbolic expression recording its
arguments (no claim depends on the numeric value). -/
inductive DewPointExpr where
  | magnus (humidity : SensorValue) (ambient : ℚ)
  deriving DecidableEq

/-- Object `derivedMetrics`: the source builds a plain object, assigning only the
fields of the matching sensor-type branch; unassigned fields are `none`.
Fields assigned a raw reading value keep type `SensorValue`; fields
computed by JS arithmetic are `Option ℚ` (`none` models `NaN`). -/
structure DerivedMetrics where
  celsius : Option SensorValue := none
  fahrenheit : Option ℚ := none
  kelvin : Option ℚ := none
  relativeHumidity : Option SensorValue := none
  dewPoint : Option DewPointExpr := none
  pascal : Option SensorValue := none
  bar : Option ℚ := none
  atmosphere : Option ℚ := none
  /-- Lookup `reading.value.latitude`: `none` when unassigned, `some none` when
  the property lookup yields `undefined`. -/
  latitude : Option (Option ℚ) := none
  longitude : Option (Option ℚ) := none
  accuracy : Option AccuracyVal := none
  deriving DecidableEq

/-- Property lookup `value.latitude` (JS: `undefined` on a non-object). -/
def SensorValue.latProp : SensorValue → Option ℚ
  | .loc la _ _ => la
  | _ => none

/-- Property lookup `value.longitude`. -/
def SensorValue.lonProp : SensorValue → Option ℚ
  | .loc _ lo _ => lo
  | _ => none

/-- Property lookup `value.accuracy`. -/
def SensorValue.accProp : SensorValue → Option ℚ
  | .loc _ _ ac => ac
  | _ => none

namespace DataProcessor

/-- Model of `DataProcessor.calculateDerivedMetrics`: type-specific derived values.
Temperature: `celsius = value`, `fahrenheit = value*9/5+32`,
`kelvin = value+273.15`; humidity: raw relative humidity plus a Magnus
dew point at an assumed 20 °C ambient; pressure: `pascal = value`,
`bar = value/100000`, `atmosphere = value/101325`; location: passthrough
of the value's coordinate properties. -/
def calculateDerivedMetrics (r : SensorReading) : DerivedMetrics :=
  match r.sensorType with
  | "temperature" =>
      { celsius := some r.value
        fahrenheit := r.value.toNumber.map (fun v => v * 9 / 5 + 32)
        kelvin := r.value.toNumber.map (fun v => v + 273.15) }
  | "humidity" =>
      { relativeHumidity := some r.value
        dewPoint := some (.magnus r.value 20) }
  | "pressure" =>
      { pascal := some r.value
        bar := r.value.toNumber.map (fun v => v / 100000)
        atmosphere := r.value.toNumber.map (fun v => v / 101325) }
  | "location" =>
      { latitude := some r.value.latProp
        longitude := some r.value.lonProp
        accuracy := some (match r.value.accProp with
          | some a => if a = 0 then .unknown else .known a
          | none => .unknown) }
  | _ => {}

/-- Model of `DataProcessor.normalizeValue`: maps the value into [0,1] with fixed
per-type bounds; other types return the value when it is a number, else 0.
JS arithmetic on a non-numeric value yields `NaN` (`none`). -/
def normalizeValue (r : SensorReading) : Option ℚ :=
  match r.sensorType with
  | "temperature" => r.value.toNumber.map (fun v => (v + 50) / 200)
  | "humidity" => r.value.toNumber.map (fun v => v / 100)
  | "pressure" => r.value.toNumber.map (fun v => v / 2000)
  | _ => match r.value with
         | .num v => some v
         | _ => some 0

/-- Model of `DataProcessor.shouldApplySmoothing`: temperature and humidity only. -/
def shouldApplySmoothing (r : SensorReading) : Bool :=
  r.sensorType = "temperature" || r.sensorType = "humidity"

/-- Model of `DataProcessor.applySmoothing`: placeholder returning the raw value. -/
def applySmoothing (r : SensorReading) : SensorValue := r.value

/-- Object `transformedData` (see `applyTransformations`). -/
structure TransformedData where
  originalValue : SensorValue
  normalizedValue : Option ℚ
  /-- Value of `new Date(reading.timestamp).getTime()` (epoch ms). -/
  timestamp : Option ℤ
  sensorId : String
  sensorType : String
  smoothedValue : Option SensorValue := none
  deriving DecidableEq

/-- Model of `DataProcessor.applyTransformations`: original and normalized value,
epoch-ms timestamp, upper-cased `sensorId`, lower-cased `sensorType`, and
a smoothed value for temperature/humidity readings. -/
def applyTransformations (r : SensorReading) : TransformedData :=
  { originalValue := r.value
    normalizedValue := normalizeValue r
    timestamp := r.timestamp
    sensorId := r.sensorId.toUpper
    sensorType := r.sensorType.toLower
    smoothedValue := if shouldApplySmoothing r then some (applySmoothing r) else none }

/-- Structure `ProcessedData`: the reading's fields (object spread) plus the derived
fields; `processedAt` is the engine's `new Date().toISOString()` instant,
modelled in epoch ms. -/
structure ProcessedData where
  sensorId : String
  sensorType : String
  value : SensorValue
  unit : Option String := none
  timestamp : Option ℤ
  location : Option LocObj := none
  metadata : Option (List String) := none
  derivedMetrics : DerivedMetrics
  transformedData : TransformedData
  qualityScore : ℤ
  processedAt : ℤ
  processingVersion : String
  deriving DecidableEq

/-- Model of `DataProcessor.processSensorReading`: validate (rethrowing the
validation error), then assemble the `ProcessedData` envelope.  The
source calls `Date.now()` and `new Date().toISOString()` within the same
tick; both are modelled by the single instant `now`. -/
def processSensorReading (now : ℤ) (r : SensorReading) : Except String ProcessedData :=
  match validateReading r with
  | .error e => .error e
  | .ok () =>
      .ok { sensorId := r.sensorId
            sensorType := r.sensorType
            value := r.value
            unit := r.unit
            timestamp := r.timestamp
            location := r.location
            metadata := r.metadata
            derivedMetrics := calculateDerivedMetrics r
            transformedData := applyTransformations r
            qualityScore := calculateQualityScore now r
            processedAt := now
            processingVersion := "1.0.0" }

/-- Model of `DataProcessor.isAnomaly`: the source stubs this to `false`. -/
def isAnomaly (_ : ProcessedData) : Bool := false

/-- A processor alert's message, by the source's template strings. -/
inductive AlertMessage where
  /-- Message `Low quality score: {score}` -/
  | lowQualityScore (score : ℤ)
  /-- Message `Anomalous reading detected` -/
  | anomalousReading
  deriving DecidableEq

/-- Structure `DataAlert` as pushed by `DataProcessor.checkForAlerts`. -/
structure DataAlert where
  type : String
  severity : String
  sensorId : String
  message : AlertMessage
  timestamp : Option ℤ
  data : Option ProcessedData
  deriving DecidableEq

/-- The QUALITY_LOW alert pushed for a low-scoring processed reading. -/
def mkQualityAlert (d : ProcessedData) : DataAlert :=
  { type := "QUALITY_LOW", severity := "medium", sensorId := d.sensorId,
    message := .lowQualityScore d.qualityScore, timestamp := d.timestamp,
    data := some d }

/-- The ANOMALY_DETECTED alert pushed for an anomalous processed reading. -/
def mkAnomalyAlert (d : ProcessedData) : DataAlert :=
  { type := "ANOMALY_DETECTED", severity := "high", sensorId := d.sensorId,
    message := .anomalousReading, timestamp := d.timestamp, data := some d }

/-- Model of `DataProcessor.checkForAlerts`: per processed reading, push a
QUALITY_LOW medium alert when `qualityScore < 70`, and an
ANOMALY_DETECTED high alert when `isAnomaly` holds (never, as stubbed). -/
def checkForAlerts : List ProcessedData → List DataAlert
  | [] => []
  | d :: rest =>
      (if d.qualityScore < 70 then [mkQualityAlert d] else []) ++
      (if isAnomaly d then [mkAnomalyAlert d] else []) ++
      checkForAlerts rest

/-- Model of `Promise.all(batch.map(processSensorReading))`: processes readings in
order; any rejection rejects the whole batch. -/
def processBatch (now : ℤ) : List SensorReading → Except String (List ProcessedData)
  | [] => .ok []
  | r :: rest =>
      match processSensorReading now r with
      | .error e => .error e
      | .ok pd =>
          match processBatch now rest with
          | .error e => .error e
          | .ok pds => .ok (pd :: pds)

/-- The processor's mutable state: the queue, the at-most-one-flush flag
and the configured batch size (default 100). -/
structure ProcState where
  processingQueue : List SensorReading
  isProcessing : Bool
  batchSize : ℕ
  deriving DecidableEq

/-- Model of `DataProcessor.processQueue`: no-op when a flush is in progress or the
queue is empty; otherwise splice off the up-to-`batchSize` oldest
readings, process them, and emit the processed batch and its alerts — or,
if any reading's processing threw, catch at batch level and emit nothing
(the spliced batch is lost).  `isProcessing` is set for the duration of
the flush and reset in `finally`; the returned state reflects completion. -/
def processQueue (now : ℤ) (s : ProcState) :
    ProcState × List ProcessedData × List DataAlert :=
  if s.isProcessing || s.processingQueue.isEmpty then (s, [], [])
  else
    let batch := s.processingQueue.take s.batchSize
    let s1 : ProcState := { s with processingQueue := s.processingQueue.drop s.batchSize }
    match processBatch now batch with
    | .ok pb => (s1, pb, checkForAlerts pb)
    | .error _ => (s1, [], [])

/-- Model of `DataProcessor.addToQueue`: append the reading; when the queue length
has reached `batchSize`, invoke `processQueue` immediately.  The second
component records whether a flush was triggered, and with what output. -/
def addToQueue (now : ℤ) (s : ProcState) (r : SensorReading) :
    ProcState × Option (List ProcessedData × List DataAlert) :=
  let s1 : ProcState := { s with processingQueue := s.processingQueue ++ [r] }
  if s1.processingQueue.length ≥ s1.batchSize then
    match processQueue now s1 with
    | (s2, pb, al) => (s2, some (pb, al))
  else (s1, none)

/-- Enqueue a list of readings in order (no timer firing in between),
counting how many flushes were triggered. -/
def enqueueAll (now : ℤ) (s : ProcState) (rs : List SensorReading) : ProcState × ℕ :=
  rs.foldl
    (fun acc r =>
      match addToQueue now acc.1 r with
      | (s', out) => (s', acc.2 + (if out.isSome then 1 else 0)))
    (s, 0)

end DataProcessor

/-- A per-type threshold entry `{min, max}` of a `SensorConfig`. -/
structure Threshold where
  min : ℚ
  max : ℚ
  deriving DecidableEq

/-- Structure `SensorConfig` (types/sensor.ts): registry entry per sensor.  The
optional `thresholds` object (fixed optional keys per sensor type) is
modelled as an association list keyed by sensor type. -/
structure SensorConfig where
  id : String
  type : String
  location : ℚ × ℚ
  thresholds : Option (List (String × Threshold)) := none
  metadata : Option (List String) := none
  status : String := "online"
  lastSeen : Option ℤ := none
  deriving DecidableEq

namespace SensorDataCollector

/-- Model of `SensorDataCollector.validateSensorReading`: every required field
(`sensorId`, `sensorType`, `value`, `timestamp`) must be truthy — note a
numeric value of exactly `0` is falsy — then a type-specific range check;
unknown sensor types pass (`default: return true`). -/
def validateSensorReading (r : SensorReading) : Bool :=
  if r.sensorId = "" || r.sensorType = "" || !r.value.truthy || r.timestamp = none then
    false
  else
    match r.sensorType with
    | "temperature" =>
        match r.value with
        | .num q => decide (-50 ≤ q ∧ q ≤ 150)
        | _ => false
    | "humidity" =>
        match r.value with
        | .num q => decide (0 ≤ q ∧ q ≤ 100)
        | _ => false
    | "pressure" =>
        match r.value with
        | .num q => decide (0 ≤ q ∧ q ≤ 2000)
        | _ => false
    | "light" =>
        match r.value with
        | .num q => decide (0 ≤ q)
        | _ => false
    | "vibration" =>
        match r.value with
        | .num q => decide (0 ≤ q)
        | _ => false
    | "location" =>
        match r.value with
        | .loc (some _) (some _) _ => true
        | _ => false
    | _ => true

/-- A collector alert's message, by the source's template strings. -/
inductive ThresholdMessage where
  /-- Message `{sensorType} exceeded maximum threshold: {value} > {max}` -/
  | maxExceeded (sensorType : String) (value : SensorValue) (bound : ℚ)
  /-- Message `{sensorType} below minimum threshold: {value} < {min}` -/
  | belowMin (sensorType : String) (value : SensorValue) (bound : ℚ)
  deriving DecidableEq

/-- The alert object built by `SensorDataCollector.checkForAlerts`. -/
structure SensorAlert where
  sensorId : String
  sensorType : String
  value : SensorValue
  threshold : Threshold
  message : ThresholdMessage
  timestamp : Option ℤ
  severity : String
  deriving DecidableEq

/-- The collector's sensor registry (`Map<string, SensorConfig>` populated
by `registerSensor`), modelled as an association list keyed by id. -/
def lookupSensor (sensors : List (String × SensorConfig)) (id : String) :
    Option SensorConfig :=
  sensors.lookup id

/-- Model of `SensorDataCollector.checkForAlerts`: returns the emitted threshold
alert, if any.  Requires the sensor to be registered, to carry a
`thresholds` object, and that object to have an entry for the reading's
type; then alerts with severity `high` when `value > max` (message naming
the maximum) or else when `value < min` (message naming the minimum).
JS comparison of a non-numeric value against a number is false. -/
def checkForAlerts (sensors : List (String × SensorConfig))
    (r : SensorReading) : Option SensorAlert :=
  match lookupSensor sensors r.sensorId with
  | none => none
  | some cfg =>
      match cfg.thresholds with
      | none => none
      | some ths =>
          match ths.lookup r.sensorType with
          | none => none
          | some th =>
              if r.value.jsGt th.max then
                some { sensorId := r.sensorId, sensorType := r.sensorType,
                       value := r.value, threshold := th,
                       message := .maxExceeded r.sensorType r.value th.max,
                       timestamp := r.timestamp, severity := "high" }
              else if r.value.jsLt th.min then
                some { sensorId := r.sensorId, sensorType := r.sensorType,
                       value := r.value, threshold := th,
                       message := .belowMin r.sensorType r.value th.min,
                       timestamp := r.timestamp, severity := "high" }
              else none

/-- Model of `SensorDataCollector.processSensorData`, restricted to its data flow:
a reading failing `validateSensorReading` is dropped (logged and returned
early); a valid one is stored/forwarded (`some`). -/
def processSensorData (r : SensorReading) : Option SensorReading :=
  if validateSensorReading r then some r else none

end SensorDataCollector

namespace ChainTraceIoTModule

/-- The module wiring (index.ts `setupEventHandlers`): the collector's
raw `sensorData` event — emitted by `handleMQTTMessage` for every parsed
MQTT message, before any validation — is forwarded straight to
`dataProcessor.addToQueue`. -/
def onSensorData (now : ℤ) (s : DataProcessor.ProcState) (r : SensorReading) :
    DataProcessor.ProcState × Option (List DataProcessor.ProcessedData × List DataProcessor.DataAlert) :=
  DataProcessor.addToQueue now s r

end ChainTraceIoTModule

/-! ## Concrete fixtures used by witnesses and counterexamples -/

/-- A fixed evaluation/validation/processing instant (epoch ms). -/
def nowC : ℤ := 1700000000000

/-- A fresh, in-range temperature reading with metadata absent. -/
def rTemp : SensorReading :=
  { sensorId := "TEMP001", sensorType := "temperature", value := .num 22, timestamp := some nowC }

/-- An out-of-range humidity reading (value 200 > 100). -/
def rBadHum : SensorReading :=
  { sensorId := "HUM001", sensorType := "humidity", value := .num 200, timestamp := some nowC }

/-- An in-range temperature reading stamped 2 hours in the future of `nowC`. -/
def rFut : SensorReading :=
  { sensorId := "TEMP001", sensorType := "temperature", value := .num 22,
    timestamp := some (nowC + 7200000) }

/-- An in-range temperature reading whose value is exactly 0. -/
def rZero : SensorReading :=
  { sensorId := "TEMP001", sensorType := "temperature", value := .num 0, timestamp := some nowC }

/-- A reading with an absent/empty timestamp. -/
def rNoTs : SensorReading :=
  { sensorId := "TEMP001", sensorType := "temperature", value := .num 22, timestamp := none }

/-- The `ProcessedData` envelope produced for `rTemp` at instant `nowC`. -/
def pdTemp : DataProcessor.ProcessedData :=
  { sensorId := rTemp.sensorId, sensorType := rTemp.sensorType, value := rTemp.value,
    unit := rTemp.unit, timestamp := rTemp.timestamp, location := rTemp.location,
    metadata := rTemp.metadata,
    derivedMetrics := DataProcessor.calculateDerivedMetrics rTemp,
    transformedData := DataProcessor.applyTransformations rTemp,
    qualityScore := DataProcessor.calculateQualityScore nowC rTemp,
    processedAt := nowC, processingVersion := "1.0.0" }

/-- A processed-data envelope with a prescribed quality score (other
fields arbitrary), for exercising the alert evaluator's boundary. -/
def pdQ (score : ℤ) : DataProcessor.ProcessedData :=
  { sensorId := "Q1", sensorType := "temperature", value := .num 1, timestamp := some nowC,
    derivedMetrics := {},
    transformedData :=
      { originalValue := .num 1, normalizedValue := some 1, timestamp := some nowC,
        sensorId := "Q1", sensorType := "temperature" },
    qualityScore := score, processedAt := nowC, processingVersion := "1.0.0" }

/-- Registry entry for sensor `PRESSURE1` with pressure thresholds
`{min: 950, max: 1050}`. -/
def cfgPressure : SensorConfig :=
  { id := "PRESSURE1", type := "pressure", location := (0, 0),
    thresholds := some [("pressure", ⟨950, 1050⟩)] }

/-- A registry holding only `PRESSURE1`. -/
def sensorsP : List (String × SensorConfig) := [("PRESSURE1", cfgPressure)]

/-- A pressure reading of value 1100 from `PRESSURE1` (passes validation,
exceeds the max threshold 1050). -/
def rPress : SensorReading :=
  { sensorId := "PRESSURE1", sensorType := "pressure", value := .num 1100,
    timestamp := some nowC }

/-- The i-th reading of the batcher scenario (value i, all valid). -/
def rS (i : ℕ) : SensorReading :=
  { sensorId := "TEMP001", sensorType := "temperature", value := .num i,
    timestamp := some nowC }

/-- The `processedAt` field of a processing result, when it succeeded. -/
def processedAtOf : Except String DataProcessor.ProcessedData → Option ℤ
  | .ok pd => some pd.processedAt
  | .error _ => none

/-- Whether a fallible computation succeeded. -/
def exceptOk {α : Type} : Except String α → Bool
  | .ok _ => true
  | .error _ => false

/-- An alert is in the list `checkForAlerts` produces exactly when it is
the QUALITY_LOW alert of some batch member scoring below 70 (the anomaly
branch never fires, `isAnomaly` being stubbed to `false`). -/
theorem mem_checkForAlerts_iff :
    ∀ (batch : List DataProcessor.ProcessedData) (a : DataProcessor.DataAlert),
      a ∈ DataProcessor.checkForAlerts batch ↔
        ∃ d, d ∈ batch ∧ d.qualityScore < 70 ∧ a = DataProcessor.mkQualityAlert d := by
  intro batch a
  induction batch with
  | nil => simp [DataProcessor.checkForAlerts]
  | cons d rest ih =>
      rw [DataProcessor.checkForAlerts]
      simp only [DataProcessor.isAnomaly, Bool.false_eq_true, if_false, List.nil_append]
      by_cases h : d.qualityScore < 70
      · rw [if_pos h]
        simp only [List.singleton_append, List.mem_cons]
        constructor
        · rintro (rfl | hmem)
          · exact ⟨d, Or.inl rfl, h, rfl⟩
          · obtain ⟨d', hd', hs, rfl⟩ := ih.mp hmem
            exact ⟨d', Or.inr hd', hs, rfl⟩
        · rintro ⟨d', rfl | hd', hs, rfl⟩
          · exact Or.inl rfl
          · exact Or.inr (ih.mpr ⟨d', hd', hs, rfl⟩)
      · rw [if_neg h]
        simp only [List.nil_append, List.mem_cons]
        constructor
        · intro hmem
          obtain ⟨d', hd', hs, rfl⟩ := ih.mp hmem
          exact ⟨d', Or.inr hd', hs, rfl⟩
        · rintro ⟨d', rfl | hd', hs, rfl⟩
          · exact absurd hs h
          · exact ih.mpr ⟨d', hd', hs, rfl⟩

/-- A batch whose member `r` fails processing is rejected as a whole:
`Promise.all` rejects with some reading's error. -/
theorem processBatch_error_of_failure :
    ∀ (now : ℤ) (l : List SensorReading) (r : SensorReading), r ∈ l →
      exceptOk (DataProcessor.processSensorReading now r) = false →
      ∃ e, DataProcessor.processBatch now l = .error e := by
  intro now l
  induction l with
  | nil => intro r hr _; simp at hr
  | cons x rest ih =>
      intro r hr hfail
      rcases List.mem_cons.mp hr with rfl | hr
      · cases hx : DataProcessor.processSensorReading now r with
        | error e => exact ⟨e, by simp [DataProcessor.processBatch, hx]⟩
        | ok pd => rw [hx] at hfail; exact absurd hfail (by simp [exceptOk])
      · cases hx : DataProcessor.processSensorReading now x with
        | error e => exact ⟨e, by simp [DataProcessor.processBatch, hx]⟩
        | ok pd =>
            obtain ⟨e, he⟩ := ih r hr hfail
            exact ⟨e, by simp [DataProcessor.processBatch, hx, he]⟩

/-! ## Claims -/

/-- C1 (code bug evidence): at a fresh (age 0), in-range temperature
reading with metadata absent, `calculateQualityScore` returns 85, not the
95 the claim states: the source deducts the 10 reasonableness points when
`isValueReasonable` returns `true` — which it always does, being stubbed
to always pass — i.e. when the value PASSES the check, where the claim
(and the function's own documentation) deducts only on failure. -/
theorem C1_fresh_inrange_reading_scores_85_not_95 :
    DataProcessor.calculateQualityScore nowC rTemp = 85
    ∧ DataProcessor.isValueReasonable rTemp = true
    ∧ rTemp.metadata = none ∧ rTemp.timestamp = some nowC :=
  ⟨rfl, rfl, rfl, rfl⟩

/-- C2 (counterexample): a reading stamped 2 hours (more than 1 hour) in
the future of the validation instant `nowC` passes both the collector's
and the processor's validation; no future-timestamp failure occurs. -/
theorem C2_future_timestamp_passes_validation :
    SensorDataCollector.validateSensorReading rFut = true
    ∧ DataProcessor.validateReading rFut = .ok ()
    ∧ rFut.timestamp = some (nowC + 7200000)
    ∧ nowC + 3600000 < nowC + 7200000 :=
  ⟨rfl, rfl, rfl, by omega⟩

/-- C2 (amended): neither validator examines the timestamp's value — the
validation outcome is unchanged under replacing the timestamp instant by
any other — so no [-30 days, +1 hour] window is enforced and no
future-timestamp-specific reason exists; only a missing/empty timestamp
makes validation fail. -/
theorem C2_validation_ignores_timestamp_value :
    ∀ (r : SensorReading) (t t' : ℤ),
      (DataProcessor.validateReading { r with timestamp := some t } =
        DataProcessor.validateReading { r with timestamp := some t' })
      ∧ (SensorDataCollector.validateSensorReading { r with timestamp := some t } =
          SensorDataCollector.validateSensorReading { r with timestamp := some t' })
      ∧ (r.timestamp = none → SensorDataCollector.validateSensorReading r = false
          ∧ DataProcessor.validateReading r ≠ .ok ()) := by
  intro r t t'
  refine ⟨?_, ?_, fun h => ⟨?_, ?_⟩⟩
  · simp [DataProcessor.validateReading]
  · simp [SensorDataCollector.validateSensorReading]
  · simp [SensorDataCollector.validateSensorReading, h]
  · unfold DataProcessor.validateReading
    split_ifs <;> simp_all

/-- C2 (witness for the amended theorem): instantiated at `rTemp` with two
different instants, and at a timestamp-less reading. -/
theorem C2_validation_ignores_timestamp_value_witness :
    (DataProcessor.validateReading { rTemp with timestamp := some 0 } =
      DataProcessor.validateReading { rTemp with timestamp := some nowC })
    ∧ SensorDataCollector.validateSensorReading rNoTs = false :=
  ⟨(C2_validation_ignores_timestamp_value rTemp 0 nowC).1,
    ((C2_validation_ignores_timestamp_value rNoTs 0 nowC).2.2 rfl).1⟩

/-- C9 (counterexample): a temperature reading with value exactly 0 fails
the collector's `validateSensorReading` (required-field truthiness), yet
it still reaches the buffer: the module wiring forwards every raw
`sensorData` event straight to `dataProcessor.addToQueue`, before any
validation, so the reading ends up in the processing queue. -/
theorem C9_zero_value_reading_reaches_buffer :
    SensorDataCollector.validateSensorReading rZero = false
    ∧ (ChainTraceIoTModule.onSensorData nowC ⟨[], false, 100⟩ rZero).1.processingQueue
        = [rZero] :=
  ⟨rfl, rfl⟩

/-- C9 (amended): a reading whose value is exactly 0 fails the collector's
`validateSensorReading` (truthiness of required fields) and is dropped by
the collector's own processing path; but it is not thereby kept out of
the buffer — the module wiring appends every raw reading to the
processor's queue regardless of validation. -/
theorem C9_zero_value_fails_collector_validation :
    ∀ (r : SensorReading), r.value = SensorValue.num 0 →
      SensorDataCollector.validateSensorReading r = false
      ∧ SensorDataCollector.processSensorData r = none
      ∧ ∀ (now : ℤ) (s : DataProcessor.ProcState),
          s.processingQueue.length + 1 < s.batchSize →
          (ChainTraceIoTModule.onSensorData now s r).1.processingQueue =
            s.processingQueue ++ [r] := by
  intro r hv
  have hval : SensorDataCollector.validateSensorReading r = false := by
    unfold SensorDataCollector.validateSensorReading
    simp [hv, SensorValue.truthy]
  refine ⟨hval, ?_, ?_⟩
  · simp [SensorDataCollector.processSensorData, hval]
  · intro now s hlen
    unfold ChainTraceIoTModule.onSensorData DataProcessor.addToQueue
    have hcond : ¬ (s.batchSize ≤ s.processingQueue.length + 1) := by omega
    simp [hcond]

/-- C9 (witness for the amended theorem): instantiated at `rZero` and an
empty 100-batch queue. -/
theorem C9_zero_value_fails_collector_validation_witness :
    SensorDataCollector.validateSensorReading rZero = false
    ∧ (ChainTraceIoTModule.onSensorData nowC ⟨[], false, 100⟩ rZero).1.processingQueue
        = [] ++ [rZero] :=
  ⟨(C9_zero_value_fails_collector_validation rZero rfl).1,
    (C9_zero_value_fails_collector_validation rZero rfl).2.2 nowC ⟨[], false, 100⟩
      (by norm_num)⟩

/-- C3: for a reading from a registered sensor whose config has a
threshold entry for the reading's type, the collector emits the
(high-severity) threshold alert exactly when the raw value exceeds the
max or falls below the min, with a message naming the violated bound and
the value; a reading from an unregistered sensor never yields this alert. -/
theorem C3_threshold_alert_iff_bound_violated :
    ∀ (sensors : List (String × SensorConfig)) (r : SensorReading),
      (SensorDataCollector.lookupSensor sensors r.sensorId = none →
        SensorDataCollector.checkForAlerts sensors r = none)
      ∧ ∀ (cfg : SensorConfig) (ths : List (String × Threshold)) (th : Threshold) (v : ℚ),
          SensorDataCollector.lookupSensor sensors r.sensorId = some cfg →
          cfg.thresholds = some ths →
          ths.lookup r.sensorType = some th →
          r.value = SensorValue.num v →
          ((SensorDataCollector.checkForAlerts sensors r).isSome ↔ (v > th.max ∨ v < th.min))
          ∧ (v > th.max →
              SensorDataCollector.checkForAlerts sensors r =
                some { sensorId := r.sensorId, sensorType := r.sensorType, value := r.value,
                       threshold := th,
                       message := .maxExceeded r.sensorType r.value th.max,
                       timestamp := r.timestamp, severity := "high" })
          ∧ (¬ v > th.max → v < th.min →
              SensorDataCollector.checkForAlerts sensors r =
                some { sensorId := r.sensorId, sensorType := r.sensorType, value := r.value,
                       threshold := th,
                       message := .belowMin r.sensorType r.value th.min,
                       timestamp := r.timestamp, severity := "high" }) := by
  intro sensors r
  constructor
  · intro h
    unfold SensorDataCollector.checkForAlerts
    rw [h]
  · intro cfg ths th v h1 h2 h3 hv
    unfold SensorDataCollector.checkForAlerts
    simp only [h1, h2, h3, hv]
    simp only [SensorValue.jsGt, SensorValue.jsLt, SensorValue.toNumber]
    by_cases hmax : v > th.max
    · simp [hmax]
    · by_cases hmin : v < th.min
      · simp [hmax, hmin]
      · simp [hmax, hmin]

/-- C3 (witness): sensor `PRESSURE1` registered with pressure thresholds
{min 950, max 1050}; a reading of value 1100 yields the high-severity
alert whose message names the violated maximum 1050; with an empty
registry the same reading yields no alert. -/
theorem C3_threshold_alert_iff_bound_violated_witness :
    SensorDataCollector.checkForAlerts sensorsP rPress =
      some { sensorId := "PRESSURE1", sensorType := "pressure", value := .num 1100,
             threshold := ⟨950, 1050⟩,
             message := .maxExceeded "pressure" (.num 1100) 1050,
             timestamp := some nowC, severity := "high" }
    ∧ SensorDataCollector.checkForAlerts [] rPress = none := by
  have h := (C3_threshold_alert_iff_bound_violated sensorsP rPress).2 cfgPressure
    [("pressure", ⟨950, 1050⟩)] ⟨950, 1050⟩ 1100 rfl rfl rfl rfl
  have hu := (C3_threshold_alert_iff_bound_violated [] rPress).1 rfl
  exact ⟨h.2.1 (by norm_num), hu⟩

/-- C6 (counterexample): the temperature reading `rFut`, stamped 2 hours
after the processing instant `nowC`, passes the processor's validation;
the envelope produced for it carries `processedAt = nowC`, which is
strictly earlier than the reading's timestamp — refuting
`processedAt ≥ timestamp` for validated readings. -/
theorem C6_future_reading_processedAt_before_timestamp :
    DataProcessor.validateReading rFut = .ok ()
    ∧ processedAtOf (DataProcessor.processSensorReading nowC rFut) = some nowC
    ∧ rFut.timestamp = some (nowC + 7200000)
    ∧ nowC < nowC + 7200000 :=
  ⟨rfl, rfl, rfl, by omega⟩

/-- C6 (amended): `processedAt` is exactly the engine's processing
instant, and the inequality `processedAt ≥ timestamp` holds precisely for
readings whose timestamp is not in the future of that instant —
validation does not rule future timestamps out, so the unconditional
invariant fails. -/
theorem C6_processedAt_is_processing_instant :
    ∀ (now : ℤ) (r : SensorReading) (pd : DataProcessor.ProcessedData),
      DataProcessor.processSensorReading now r = .ok pd →
      pd.processedAt = now ∧ pd.timestamp = r.timestamp
      ∧ (∀ t : ℤ, r.timestamp = some t → t ≤ now → t ≤ pd.processedAt) := by
  intro now r pd h
  unfold DataProcessor.processSensorReading at h
  cases hval : DataProcessor.validateReading r with
  | error e => rw [hval] at h; exact absurd h (by simp)
  | ok u =>
      cases u
      rw [hval] at h
      simp only [Except.ok.injEq] at h
      subst h
      exact ⟨rfl, rfl, fun t ht hle => hle⟩

/-- C6 (witness for the amended theorem): the envelope for `rTemp`
(timestamp equal to the processing instant) has `processedAt = nowC ≥`
its timestamp. -/
theorem C6_processedAt_is_processing_instant_witness :
    pdTemp.processedAt = nowC ∧ nowC ≤ pdTemp.processedAt := by
  have h := C6_processedAt_is_processing_instant nowC rTemp pdTemp rfl
  exact ⟨h.1, h.2.2 nowC rfl le_rfl⟩

/-- C8: for every validated temperature reading with numeric value `v`,
the envelope's derived metrics satisfy `celsius = value` (the round-trip
identity), `fahrenheit = v * 9 / 5 + 32` and `kelvin = v + 273.15`. -/
theorem C8_temperature_derived_metrics :
    ∀ (now : ℤ) (r : SensorReading) (v : ℚ) (pd : DataProcessor.ProcessedData),
      r.sensorType = "temperature" → r.value = SensorValue.num v →
      DataProcessor.processSensorReading now r = .ok pd →
      pd.derivedMetrics.celsius = some r.value
      ∧ pd.derivedMetrics.fahrenheit = some (v * 9 / 5 + 32)
      ∧ pd.derivedMetrics.kelvin = some (v + 273.15) := by
  intro now r v pd hty hv h
  unfold DataProcessor.processSensorReading at h
  cases hval : DataProcessor.validateReading r with
  | error e => rw [hval] at h; exact absurd h (by simp)
  | ok u =>
      cases u
      rw [hval] at h
      simp only [Except.ok.injEq] at h
      subst h
      simp [DataProcessor.calculateDerivedMetrics, hty, hv, SensorValue.toNumber]

/-- C8 (witness): the envelope for `rTemp` (value 22 °C) carries
`celsius = 22`, `fahrenheit = 71.6` and `kelvin = 295.15`. -/
theorem C8_temperature_derived_metrics_witness :
    pdTemp.derivedMetrics.celsius = some (SensorValue.num 22)
    ∧ pdTemp.derivedMetrics.fahrenheit = some 71.6
    ∧ pdTemp.derivedMetrics.kelvin = some 295.15 := by
  obtain ⟨h1, h2, h3⟩ := C8_temperature_derived_metrics nowC rTemp 22 pdTemp rfl rfl rfl
  refine ⟨h1, ?_, ?_⟩
  · rw [h2]; norm_num
  · rw [h3]; norm_num

/-- C4 (counterexample): the valid reading `rTemp` processes fine on its
own, and the humidity-200 reading `rBadHum` alone throws; but flushing a
batch containing both emits no processed data and no alerts at all — the
surviving reading is NOT still processed and emitted, refuting the claim
that one failing reading never voids the rest of the batch. -/
theorem C4_failing_reading_voids_batch :
    exceptOk (DataProcessor.processBatch nowC [rTemp]) = true
    ∧ exceptOk (DataProcessor.processSensorReading nowC rBadHum) = false
    ∧ DataProcessor.validateReading rBadHum = .error "Invalid humidity value"
    ∧ DataProcessor.processQueue nowC ⟨[rTemp, rBadHum], false, 100⟩ =
        (⟨[], false, 100⟩, [], []) :=
  ⟨rfl, rfl, rfl, rfl⟩

/-- C4 (amended): an exception raised while processing a single reading of
a flushed batch is caught — at the batch level, so the processor survives
and its state is consistent — but it discards the whole batch: the queue
loses the spliced batch and nothing is emitted for any reading of it,
including the readings that would have processed successfully. -/
theorem C4_single_failure_discards_batch :
    ∀ (now : ℤ) (s : DataProcessor.ProcState),
      s.isProcessing = false →
      (∃ r, r ∈ s.processingQueue.take s.batchSize ∧
        exceptOk (DataProcessor.processSensorReading now r) = false) →
      DataProcessor.processQueue now s =
        ({ s with processingQueue := s.processingQueue.drop s.batchSize }, [], []) := by
  intro now s hproc ⟨r, hr, hfail⟩
  have hne : s.processingQueue ≠ [] := by
    intro h
    rw [h] at hr
    simp at hr
  obtain ⟨e, he⟩ :=
    processBatch_error_of_failure now (s.processingQueue.take s.batchSize) r hr hfail
  unfold DataProcessor.processQueue
  rw [hproc]
  simp only [Bool.false_or, List.isEmpty_eq_true]
  rw [if_neg hne, he]

/-- C4 (witness for the amended theorem): flushing the queue holding the
valid `rTemp` and the invalid `rBadHum` empties the queue and emits
nothing. -/
theorem C4_single_failure_discards_batch_witness :
    DataProcessor.processQueue nowC ⟨[rTemp, rBadHum], false, 100⟩ =
      ({ processingQueue := [], isProcessing := false, batchSize := 100 }, [], []) :=
  C4_single_failure_discards_batch nowC ⟨[rTemp, rBadHum], false, 100⟩ rfl
    ⟨rBadHum, by simp, rfl⟩

/-- C5: the batcher appends each arriving reading and triggers a flush
exactly when the queue length reaches `batchSize`; a flush removes
exactly the `min(batchSize, length)` oldest readings in insertion order;
and concretely, with `batchSize = 3`, five enqueues and no timer, exactly
one flush occurs — at the third enqueue — leaving the last two readings
queued. -/
theorem C5_batcher_flush_semantics :
    (∀ (now : ℤ) (s : DataProcessor.ProcState) (r : SensorReading),
      s.processingQueue.length + 1 < s.batchSize →
      DataProcessor.addToQueue now s r =
        ({ s with processingQueue := s.processingQueue ++ [r] }, none))
    ∧ (∀ (now : ℤ) (s : DataProcessor.ProcState) (r : SensorReading),
        s.isProcessing = false →
        s.processingQueue.length + 1 ≥ s.batchSize →
        (DataProcessor.addToQueue now s r).1.processingQueue =
          (s.processingQueue ++ [r]).drop s.batchSize
        ∧ (DataProcessor.addToQueue now s r).2.isSome = true)
    ∧ (∀ (now : ℤ) (s : DataProcessor.ProcState),
        s.isProcessing = false → s.processingQueue ≠ [] →
        s.processingQueue = s.processingQueue.take s.batchSize
            ++ (DataProcessor.processQueue now s).1.processingQueue
        ∧ (s.processingQueue.take s.batchSize).length
            = min s.batchSize s.processingQueue.length)
    ∧ DataProcessor.enqueueAll nowC ⟨[], false, 3⟩ [rS 1, rS 2, rS 3, rS 4, rS 5] =
        (⟨[rS 4, rS 5], false, 3⟩, 1)
    ∧ DataProcessor.enqueueAll nowC ⟨[], false, 3⟩ [rS 1, rS 2, rS 3] = (⟨[], false, 3⟩, 1)
    ∧ (DataProcessor.enqueueAll nowC ⟨[], false, 3⟩ [rS 1, rS 2]).2 = 0 := by
  have hflush : ∀ (now : ℤ) (s : DataProcessor.ProcState),
      s.isProcessing = false → s.processingQueue ≠ [] →
      (DataProcessor.processQueue now s).1.processingQueue =
        s.processingQueue.drop s.batchSize := by
    intro now s hproc hne
    unfold DataProcessor.processQueue
    rw [hproc]
    simp only [Bool.false_or, List.isEmpty_eq_true]
    rw [if_neg hne]
    cases hb : DataProcessor.processBatch now (s.processingQueue.take s.batchSize) <;>
      simp [hb]
  refine ⟨?_, ?_, ?_, by decide, by decide, by decide⟩
  · intro now s r hlt
    unfold DataProcessor.addToQueue
    have hcond : ¬ (s.batchSize ≤ s.processingQueue.length + 1) := by omega
    simp [hcond]
  · intro now s r hproc hge
    have hcond : (s.processingQueue ++ [r]).length ≥ s.batchSize := by
      simp only [List.length_append, List.length_singleton]
      omega
    constructor
    · unfold DataProcessor.addToQueue
      simp only [List.length_append, List.length_singleton]
      rw [if_pos (by omega : s.processingQueue.length + 1 ≥ s.batchSize)]
      exact hflush now _ hproc (by simp)
    · unfold DataProcessor.addToQueue
      simp only [List.length_append, List.length_singleton]
      rw [if_pos (by omega : s.processingQueue.length + 1 ≥ s.batchSize)]
      simp
  · intro now s hproc hne
    refine ⟨?_, List.length_take _ _⟩
    rw [hflush now s hproc hne]
    exact (List.take_append_drop _ _).symm

/-- C5 (witness): instantiated at a queue of length 1 with `batchSize` 3
(append, no flush) and at a full queue of length 2 plus an arrival
(flush triggered, queue drained). -/
theorem C5_batcher_flush_semantics_witness :
    DataProcessor.addToQueue nowC ⟨[rS 1], false, 3⟩ (rS 2) =
      (⟨[rS 1, rS 2], false, 3⟩, none)
    ∧ (DataProcessor.addToQueue nowC ⟨[rS 1, rS 2], false, 3⟩ (rS 3)).1.processingQueue = []
    ∧ (DataProcessor.addToQueue nowC ⟨[rS 1, rS 2], false, 3⟩ (rS 3)).2.isSome = true := by
  have h1 := C5_batcher_flush_semantics.1 nowC ⟨[rS 1], false, 3⟩ (rS 2) (by norm_num)
  have h2 := C5_batcher_flush_semantics.2.1 nowC ⟨[rS 1, rS 2], false, 3⟩ (rS 3) rfl
    (by norm_num)
  exact ⟨h1, h2.1, h2.2⟩

/-- C7: within a processed batch, a reading gets a QUALITY_LOW alert
(data snapshot pointing at it) exactly when its quality score is strictly
below 70, and every alert this evaluator emits is a QUALITY_LOW alert of
severity medium. -/
theorem C7_quality_low_alert_iff_score_below_70 :
    ∀ (batch : List DataProcessor.ProcessedData) (d : DataProcessor.ProcessedData),
      d ∈ batch →
      ((∃ a, a ∈ DataProcessor.checkForAlerts batch ∧ a.type = "QUALITY_LOW"
          ∧ a.data = some d) ↔ d.qualityScore < 70)
      ∧ ∀ a, a ∈ DataProcessor.checkForAlerts batch →
          a.type = "QUALITY_LOW" ∧ a.severity = "medium" := by
  intro batch d hd
  constructor
  · constructor
    · rintro ⟨a, hmem, _, hdata⟩
      obtain ⟨d', _, hs, rfl⟩ := (mem_checkForAlerts_iff batch a).mp hmem
      have : d' = d := by
        simpa [DataProcessor.mkQualityAlert] using hdata
      exact this ▸ hs
    · intro hs
      exact ⟨DataProcessor.mkQualityAlert d,
        (mem_checkForAlerts_iff batch _).mpr ⟨d, hd, hs, rfl⟩, rfl, rfl⟩
  · intro a hmem
    obtain ⟨d', _, _, rfl⟩ := (mem_checkForAlerts_iff batch a).mp hmem
    exact ⟨rfl, rfl⟩

/-- C7 (witness): in the batch holding envelopes of scores 70 and 69, the
score-70 envelope triggers no QUALITY_LOW alert (strict `<`) while the
score-69 envelope does. -/
theorem C7_quality_low_alert_iff_score_below_70_witness :
    ¬ (∃ a, a ∈ DataProcessor.checkForAlerts [pdQ 70, pdQ 69] ∧ a.type = "QUALITY_LOW"
        ∧ a.data = some (pdQ 70))
    ∧ (∃ a, a ∈ DataProcessor.checkForAlerts [pdQ 70, pdQ 69] ∧ a.type = "QUALITY_LOW"
        ∧ a.data = some (pdQ 69)) := by
  have h70 := C7_quality_low_alert_iff_score_below_70 [pdQ 70, pdQ 69] (pdQ 70) (by simp)
  have h69 := C7_quality_low_alert_iff_score_below_70 [pdQ 70, pdQ 69] (pdQ 69) (by simp)
  constructor
  · intro hex
    exact absurd (h70.1.mp hex) (by decide)
  · exact h69.1.mpr (by decide)

/-- C10: for every reading and evaluation instant the quality score is at
least 65 — the three deductions total at most 20 + 10 + 5 = 35 from the
starting 100 — and hence the `Math.max(0, score)` floor never binds: the
returned score equals the raw (pre-floor) score. -/
theorem C10_quality_score_at_least_65 :
    ∀ (now : ℤ) (r : SensorReading),
      65 ≤ DataProcessor.calculateQualityScore now r
      ∧ DataProcessor.calculateQualityScore now r = DataProcessor.rawQualityScore now r := by
  intro now r
  have hsd : DataProcessor.staleDeduction now r.timestamp = 0
      ∨ DataProcessor.staleDeduction now r.timestamp = 20 := by
    rcases r.timestamp with _ | t
    · exact Or.inl rfl
    · simp only [DataProcessor.staleDeduction]
      split
      · exact Or.inr rfl
      · exact Or.inl rfl
  have hraw : 65 ≤ DataProcessor.rawQualityScore now r := by
    unfold DataProcessor.rawQualityScore DataProcessor.isValueReasonable
    rcases hsd with h | h <;> rw [h] <;> split <;> omega
  exact ⟨le_trans hraw (le_max_right 0 _),
    max_eq_right (le_trans (by norm_num) hraw)⟩
